import Mathlib

/-
Shallow embedding of the sortie-orchestration core of kcauto-kai
(kcauto-kai.sikuli/combat.sikuli/combat.py and
kcauto-kai.sikuli/resupply.sikuli/resupply.py).

Modelling conventions:
* Python ints are Int (damage tallies can be decremented below a sampled
  value by the FCF logic, so we do not force Nat).
* A damage dict always carries exactly the three severity keys once it has
  been populated by check_damages; the CombatFleet.damage_counts dict starts
  out empty, which we model as Option DamageCounts (none = the empty dict,
  so a KeyError-raising read is a none result).
* Python `is 1` on small ints behaves as equality in the CPython/Jython
  runtimes this code targets (small-integer interning), so it is modelled
  as equality with 1.
* Wall-clock time is a Nat of minutes; datetime.now() is a `now` parameter
  held fixed across one run, and `now + timedelta(minutes=m)` is `now + m`.
* Screen interactions (exists / wait / check_and_click) are Bool inputs
  describing what the Vision layer reported at that point of the run.
-/

namespace KCAuto

/-- Damage severity tiers, ordered heavy > moderate > minor in the source's
`valid_damages` tuple. -/
inductive Severity where
| heavy
| moderate
| minor
deriving DecidableEq, Repr, BEq

/-- A fully-populated damage dict: map[severity -> count] carrying all three
severity keys, as produced by CombatFleet.check_damages. -/
structure DamageCounts where
  heavy : Int
  moderate : Int
  minor : Int
deriving DecidableEq, Repr

/-- Dict access counts[severity] on a fully-populated damage dict. -/
def DamageCounts.get (dc : DamageCounts) : Severity → Int
| Severity.heavy => dc.heavy
| Severity.moderate => dc.moderate
| Severity.minor => dc.minor

/-- The tuple `valid_damages = ('heavy', 'moderate', 'minor')` from
CombatFleet.get_damages_at_threshold. -/
def valid_damages : List Severity :=
[Severity.heavy, Severity.moderate, Severity.minor]

/-- CombatFleet.get_damages_at_threshold (combat.py:700-711):
`valid_damages[:valid_damages.index(threshold) + 1]`. -/
def get_damages_at_threshold (threshold : Severity) : List Severity :=
valid_damages.take (valid_damages.indexOf threshold + 1)

/-- CombatFleet.get_damage_counts_at_threshold (combat.py:593-615) on an
explicitly passed, populated counts dict: sums counts[damage] over
get_damages_at_threshold(threshold).  The Python falsy default
(`if not counts: counts = self.damage_counts`) is not modelled because every
call site reached by the claims passes a populated dict. -/
def get_damage_counts_at_threshold (threshold : Severity) (counts : DamageCounts) : Int :=
(get_damages_at_threshold threshold).foldl (fun count damage => count + counts.get damage) 0

/-- CombatModule._combine_fleet_damages (combat.py:533-548): a fresh dict
with combined[key] = main[key] + escort[key] for every key of main; both
dicts carry the three severity keys. -/
def combine_fleet_damages (main escort : DamageCounts) : DamageCounts :=
{ heavy := main.heavy + escort.heavy,
  moderate := main.moderate + escort.moderate,
  minor := main.minor + escort.minor }

/-- The per-fleet state of CombatFleet that the FCF logic touches
(combat.py:557-591).  damage_counts = none models the initial empty dict. -/
structure CombatFleet where
  fleet_id : Nat
  damage_counts : Option DamageCounts
  damaged_fcf_retreat_count : Int
deriving DecidableEq, Repr

/-- CombatFleet.reset_fcf_retreat_counts (combat.py:569-572). -/
def CombatFleet.reset_fcf_retreat_counts (f : CombatFleet) : CombatFleet :=
{ f with damaged_fcf_retreat_count := 0 }

/-- CombatFleet.increment_fcf_retreat_count (combat.py:581-591): only when
`'heavy' in self.damage_counts and self.damage_counts['heavy'] is 1` does it
increment the retreat counter and decrement the heavy count. -/
def CombatFleet.increment_fcf_retreat_count (f : CombatFleet) : CombatFleet :=
match f.damage_counts with
| some dc =>
    if dc.heavy = 1 then
      { f with
        damage_counts := some { dc with heavy := dc.heavy - 1 },
        damaged_fcf_retreat_count := f.damaged_fcf_retreat_count + 1 }
    else f
| none => f

/-- CombatFleet.resolve_fcf_retreat_counts (combat.py:574-579):
`damage_counts['heavy'] += damaged_fcf_retreat_count` then reset the counter.
A read of the missing 'heavy' key (empty dict) would raise, modelled as
none. -/
def CombatFleet.resolve_fcf_retreat_counts (f : CombatFleet) : Option CombatFleet :=
match f.damage_counts with
| some dc =>
    some { f with
           damage_counts := some { dc with heavy := dc.heavy + f.damaged_fcf_retreat_count },
           damaged_fcf_retreat_count := 0 }
| none => none

/-- The module state read and written by CombatModule._fcf_resolver:
the two sub-fleets and the combined damage tally self.dmg. -/
structure FcfState where
  fleet1 : CombatFleet
  fleet2 : CombatFleet
  dmg : DamageCounts
deriving DecidableEq, Repr

/-- CombatModule._fcf_resolver (combat.py:515-531).  prompt_visible is the
`fcf_retreat_ship.png` exists check, click_success the check_and_click
result.  Reading damage_counts['heavy'] of a fleet whose dict is still empty
raises KeyError, modelled as none. -/
def fcf_resolver (prompt_visible click_success : Bool) (s : FcfState) : Option FcfState :=
if prompt_visible then
  match s.fleet1.damage_counts, s.fleet2.damage_counts with
  | some dc1, some dc2 =>
      if dc1.heavy + dc2.heavy = 1 then
        let fleet1 := s.fleet1.increment_fcf_retreat_count
        let fleet2 := s.fleet2.increment_fcf_retreat_count
        if click_success then
          some { fleet1 := fleet1, fleet2 := fleet2,
                 dmg := { s.dmg with heavy := s.dmg.heavy - 1 } }
        else
          some { fleet1 := fleet1, fleet2 := fleet2, dmg := s.dmg }
      else
        some s
  | _, _ => none
else some s

/-- CombatModule._set_next_combat_time (combat.py:65-76), at minute
granularity: now + timedelta(minutes). -/
def set_next_combat_time (now minutes : Nat) : Nat :=
now + minutes

/-- The inputs of one run of CombatModule._conduct_pre_sortie_checks
(combat.py:187-258), after the per-fleet supply/damage/fatigue sampling and
the combined-fleet merge have produced their results. -/
structure PreSortieInput where
  now : Nat
  needs_resupply : Bool
  check_fatigue : Bool
  fatigue_high : Bool
  fatigue_medium : Bool
  repair_limit : Severity
  dmg : DamageCounts
  port_check : Bool
  port_full : Bool
deriving Repr

/-- CombatModule._conduct_pre_sortie_checks (combat.py:187-258): the chain of
veto checks, each setting cancel_sortie and overwriting next_combat_time.
Returns (passed, next_combat_time').  check_fatigue is
`'CheckFatigue' in misc_options`; port_check is
`'PortCheck' in misc_options or world == 'event'`. -/
def conduct_pre_sortie_checks (inp : PreSortieInput) (next_combat_time : Nat) : Bool × Nat :=
let st := (false, next_combat_time)
let st := if inp.needs_resupply then (true, set_next_combat_time inp.now 0) else st
let st :=
  if inp.check_fatigue then
    if inp.fatigue_high then (true, set_next_combat_time inp.now 25)
    else if inp.fatigue_medium then (true, set_next_combat_time inp.now 15)
    else st
  else st
let damage_counts_at_threshold := get_damage_counts_at_threshold inp.repair_limit inp.dmg
let st := if 0 < damage_counts_at_threshold then (true, set_next_combat_time inp.now 0) else st
let st := if inp.port_check && inp.port_full then (true, set_next_combat_time inp.now 15) else st
(!st.1, st.2)

/-- The delays of the veto conditions that fire in one run of
conduct_pre_sortie_checks, listed in the source's evaluation order.  The
fatigue-medium branch is only reached when fatigue-high is false (if/elif in
combat.py:223-232). -/
def applicable_veto_delays (inp : PreSortieInput) : List Nat :=
(if inp.needs_resupply then [0] else []) ++
(if inp.check_fatigue && inp.fatigue_high then [25] else []) ++
(if inp.check_fatigue && !inp.fatigue_high && inp.fatigue_medium then [15] else []) ++
(if 0 < get_damage_counts_at_threshold inp.repair_limit inp.dmg then [0] else []) ++
(if inp.port_check && inp.port_full then [15] else [])

/-- The veto-delay list exactly as claim C2 words it, with each listed
condition treated as independently applicable: the fatigue-medium veto is
applicable whenever the medium-fatigue flag holds, regardless of the
high-fatigue flag. -/
def claimed_veto_delays (inp : PreSortieInput) : List Nat :=
(if inp.needs_resupply then [0] else []) ++
(if inp.check_fatigue && inp.fatigue_high then [25] else []) ++
(if inp.check_fatigue && inp.fatigue_medium then [15] else []) ++
(if 0 < get_damage_counts_at_threshold inp.repair_limit inp.dmg then [0] else []) ++
(if inp.port_check && inp.port_full then [15] else [])

/-- Inputs of one run of CombatModule.combat_logic_wrapper (combat.py:78-124)
up to the launch click: the LBAS gate outcome inside _select_combat_map
(combat.py:148-157), the pre-sortie-check inputs, and whether the launch
control could be clicked. -/
structure WrapperInput where
  pre : PreSortieInput
  lbas_enabled : Bool
  lbas_check_passes : Bool
  lbas_delay : Nat
  start_click_success : Bool
deriving Repr

/-- CombatModule._select_combat_map (combat.py:126-185), restricted to its
effect on the scheduling state: it returns False exactly when the LBAS gate
is enabled and its fatigue check fails, in which case it stores
now + lbas_delay; all the navigation clicks block until they succeed. -/
def select_combat_map (inp : WrapperInput) (next_combat_time : Nat) : Bool × Nat :=
if inp.lbas_enabled && !inp.lbas_check_passes then
  (false, set_next_combat_time inp.pre.now inp.lbas_delay)
else (true, next_combat_time)

/-- CombatModule.combat_logic_wrapper (combat.py:78-124), restricted to its
return value and the scheduling state.  The combat body (_run_combat_logic,
FCF reset/resolve, the background observer) never touches next_combat_time,
so it is elided here. -/
def combat_logic_wrapper (inp : WrapperInput) (next_combat_time : Nat) : Bool × Nat :=
let sel := select_combat_map inp next_combat_time
if !sel.1 then (false, sel.2)
else
  let checks := conduct_pre_sortie_checks inp.pre sel.2
  if checks.1 then
    if !inp.start_click_success then (false, set_next_combat_time inp.pre.now 0)
    else (true, checks.2)
  else (false, checks.2)

/-- The retreat/continue decision of CombatModule._run_combat_logic
(combat.py:376-403), taken when combat_retreat.png is visible: retreat
starts False, is set by the node-count check, then by the
damage-at-threshold check. -/
def retreat_decision (nodes_run : List String) (combat_nodes : Nat)
    (retreat_limit : Severity) (dmg : DamageCounts) : Bool :=
let retreat := false
let retreat := if combat_nodes ≤ nodes_run.length then true else retreat
let threshold_dmg_count := get_damage_counts_at_threshold retreat_limit dmg
let retreat := if 0 < threshold_dmg_count then true else retreat
retreat

/-- A sikuli match delivered to the fleet-position observer: screen x, y and
the match's width and height. -/
structure SikuliMatch where
  x : Int
  y : Int
  w : Int
  h : Int
deriving DecidableEq, Repr

/-- The module state read and written by CombatModule._update_fleet_position:
current_position and current_node (node labels as strings). -/
structure TrackerState where
  current_position : Int × Int
  current_node : Option String
deriving DecidableEq, Repr

/-- The in-game position computed by _update_fleet_position
(combat.py:499-502): (x + w/2 - region.x, y + h - region.y), with Python 2
integer division on w/2. -/
def match_position (region_x region_y : Int) (m : SikuliMatch) : Int × Int :=
(m.x + m.w / 2 - region_x, m.y + m.h - region_y)

/-- CombatModule._update_fleet_position (combat.py:489-513).
find_node_by_pos is the Map Provider lookup self.map.find_node_by_pos;
current_node keeps its old value when the lookup returns none. -/
def update_fleet_position (find_node_by_pos : Int × Int → Option String)
    (region_x region_y : Int) (event : SikuliMatch) (st : TrackerState) : TrackerState :=
let current_position := match_position region_x region_y event
let matched_node := find_node_by_pos current_position
{ current_position := current_position,
  current_node :=
    match matched_node with
    | some node => some node
    | none => st.current_node }

/-- The background observer of combat.py:109-114: event.repeat() re-arms the
handler, so a whole observation run is the fold of _update_fleet_position
over the delivered appearance events, in order. -/
def run_observer (find_node_by_pos : Int × Int → Option String)
    (region_x region_y : Int) (events : List SikuliMatch) (st : TrackerState) : TrackerState :=
events.foldl (fun s e => update_fleet_position find_node_by_pos region_x region_y e s) st

/-- The per-fleet state touched by ResupplyModule (resupply.py). -/
structure ResupplyFleet where
  fleet_id : Nat
  needs_resupply : Bool
deriving DecidableEq, Repr

/-- ResupplyModule.check_need_to_resupply (resupply.py:26-36): True if any
active fleet needs resupply. -/
def check_need_to_resupply (fleets : List ResupplyFleet) : Bool :=
fleets.any fun fleet => fleet.needs_resupply

/-- The body of the resupply_fleets loop for one fleet (resupply.py:43-54):
a fleet that needs resupply is resupplied and its flag cleared; any other
fleet is skipped. -/
def resupply_one_fleet (fleet : ResupplyFleet) : ResupplyFleet :=
if fleet.needs_resupply then { fleet with needs_resupply := false } else fleet

/-- ResupplyModule.resupply_fleets (resupply.py:38-55): every fleet goes
through resupply_one_fleet, and stats.increment_resupplies_done() runs once
per fleet that needed resupply. -/
def resupply_fleets (fleets : List ResupplyFleet) (resupplies_done : Nat) :
    List ResupplyFleet × Nat :=
(fleets.map resupply_one_fleet,
 resupplies_done + fleets.countP fun fleet => fleet.needs_resupply)

/-
Theorems.
-/

/-- Computation lemma: the threshold-heavy sum unfolds to the heavy count. -/
theorem get_damage_counts_at_threshold_heavy_eq (counts : DamageCounts) :
    get_damage_counts_at_threshold Severity.heavy counts = 0 + counts.heavy := rfl

/-- Computation lemma: the threshold-moderate sum unfolds to heavy plus
moderate. -/
theorem get_damage_counts_at_threshold_moderate_eq (counts : DamageCounts) :
    get_damage_counts_at_threshold Severity.moderate counts
      = 0 + counts.heavy + counts.moderate := rfl

/-- Computation lemma: the threshold-minor sum unfolds to heavy plus moderate
plus minor. -/
theorem get_damage_counts_at_threshold_minor_eq (counts : DamageCounts) :
    get_damage_counts_at_threshold Severity.minor counts
      = 0 + counts.heavy + counts.moderate + counts.minor := rfl

/-- C3: for every damage-counts map with non-negative entries for heavy,
moderate and minor, get_damage_counts_at_threshold sums the counts of all
severities from heavy down through the threshold inclusive: heavy gives
heavy, moderate gives heavy + moderate, minor gives
heavy + moderate + minor. -/
theorem get_damage_counts_at_threshold_cumulative (counts : DamageCounts)
    (hh : 0 ≤ counts.heavy) (hm : 0 ≤ counts.moderate) (hmin : 0 ≤ counts.minor) :
    get_damage_counts_at_threshold Severity.heavy counts = counts.heavy ∧
    get_damage_counts_at_threshold Severity.moderate counts
      = counts.heavy + counts.moderate ∧
    get_damage_counts_at_threshold Severity.minor counts
      = counts.heavy + counts.moderate + counts.minor := by
  rw [get_damage_counts_at_threshold_heavy_eq,
    get_damage_counts_at_threshold_moderate_eq,
    get_damage_counts_at_threshold_minor_eq]
  refine ⟨by omega, by omega, by omega⟩

/-- Example damage dict used to instantiate the threshold claims. -/
def example_counts : DamageCounts := { heavy := 1, moderate := 2, minor := 3 }

/-- Witness for C3 at the concrete dict (heavy 1, moderate 2, minor 3). -/
theorem get_damage_counts_at_threshold_cumulative_witness :
    get_damage_counts_at_threshold Severity.heavy example_counts = 1 ∧
    get_damage_counts_at_threshold Severity.moderate example_counts = 1 + 2 ∧
    get_damage_counts_at_threshold Severity.minor example_counts = 1 + 2 + 3 :=
  get_damage_counts_at_threshold_cumulative example_counts
    (by decide) (by decide) (by decide)

/-- Damage dict refuting the direction of monotonicity in claim C4: a single
ship with minor damage. -/
def c4_counts : DamageCounts := { heavy := 0, moderate := 0, minor := 1 }

/-- C4 counterexample: with non-negative entries (heavy 0, moderate 0,
minor 1), moving the threshold one step from minor towards heavy the count
strictly drops from 1 to 0, so the count is not monotonically non-decreasing
as the threshold moves from minor to heavy. -/
theorem get_damage_counts_at_threshold_not_nondecreasing_towards_heavy :
    0 ≤ c4_counts.heavy ∧ 0 ≤ c4_counts.moderate ∧ 0 ≤ c4_counts.minor ∧
    get_damage_counts_at_threshold Severity.minor c4_counts = 1 ∧
    get_damage_counts_at_threshold Severity.moderate c4_counts = 0 ∧
    ¬ get_damage_counts_at_threshold Severity.minor c4_counts
        ≤ get_damage_counts_at_threshold Severity.moderate c4_counts := by
  rw [get_damage_counts_at_threshold_moderate_eq,
    get_damage_counts_at_threshold_minor_eq]
  refine ⟨by decide, by decide, by decide, by decide, by decide, by decide⟩

/-- Position of a threshold along the direction heavy → minor: the lower the
position, the stricter the threshold. -/
def threshold_position : Severity → Nat
| Severity.heavy => 0
| Severity.moderate => 1
| Severity.minor => 2

/-- C4 (amended): for every damage-counts map with non-negative entries, the
value of get_damage_counts_at_threshold is monotonically non-decreasing as
the threshold moves from heavy to minor (equivalently, non-increasing from
minor to heavy). -/
theorem get_damage_counts_at_threshold_monotone (counts : DamageCounts)
    (hh : 0 ≤ counts.heavy) (hm : 0 ≤ counts.moderate) (hmin : 0 ≤ counts.minor)
    (t1 t2 : Severity) (h : threshold_position t1 ≤ threshold_position t2) :
    get_damage_counts_at_threshold t1 counts
      ≤ get_damage_counts_at_threshold t2 counts := by
  cases t1 <;> cases t2 <;>
    simp only [get_damage_counts_at_threshold_heavy_eq,
      get_damage_counts_at_threshold_moderate_eq,
      get_damage_counts_at_threshold_minor_eq, threshold_position] at h ⊢ <;>
    omega

/-- Witness for the amended C4 at the concrete dict (heavy 1, moderate 2,
minor 3), thresholds heavy and minor. -/
theorem get_damage_counts_at_threshold_monotone_witness :
    get_damage_counts_at_threshold Severity.heavy example_counts
      ≤ get_damage_counts_at_threshold Severity.minor example_counts :=
  get_damage_counts_at_threshold_monotone example_counts
    (by decide) (by decide) (by decide) Severity.heavy Severity.minor (by decide)

/-- C7: the combined-fleet damage merge is the per-severity sum of the two
dicts, and is commutative per severity. -/
theorem combine_fleet_damages_pointwise_sum_comm (a b : DamageCounts) :
    (∀ s : Severity, (combine_fleet_damages a b).get s = a.get s + b.get s) ∧
    (∀ s : Severity, (combine_fleet_damages a b).get s = (combine_fleet_damages b a).get s) := by
  constructor <;> intro s <;> cases s <;>
    simp [combine_fleet_damages, DamageCounts.get] <;> omega

/-- Witness for C7 at the concrete dicts (1, 2, 3) and (4, 5, 6). -/
theorem combine_fleet_damages_pointwise_sum_comm_witness :
    (combine_fleet_damages { heavy := 1, moderate := 2, minor := 3 }
        { heavy := 4, moderate := 5, minor := 6 }).get Severity.heavy
      = ({ heavy := 1, moderate := 2, minor := 3 : DamageCounts }).get Severity.heavy
        + ({ heavy := 4, moderate := 5, minor := 6 : DamageCounts }).get Severity.heavy :=
  (combine_fleet_damages_pointwise_sum_comm
    { heavy := 1, moderate := 2, minor := 3 }
    { heavy := 4, moderate := 5, minor := 6 }).1 Severity.heavy

/-- C5: with the retreat prompt visible, the orchestrator retreats iff the
number of nodes visited this sortie reaches the configured node cap or the
damage count at or below the retreat-limit threshold is positive; in
particular with node cap 3 the decision is retreat after the third node even
with damage below the threshold, and a positive retreat-limit count forces
retreat already at node 1; otherwise the sortie continues. -/
theorem retreat_decision_iff_cap_or_threshold :
    (∀ (nodes_run : List String) (combat_nodes : Nat)
        (retreat_limit : Severity) (dmg : DamageCounts),
      retreat_decision nodes_run combat_nodes retreat_limit dmg = true ↔
        (combat_nodes ≤ nodes_run.length ∨
          0 < get_damage_counts_at_threshold retreat_limit dmg)) ∧
    retreat_decision ["A", "B", "C"] 3 Severity.heavy
      { heavy := 0, moderate := 0, minor := 1 } = true ∧
    retreat_decision ["A"] 3 Severity.minor
      { heavy := 0, moderate := 0, minor := 1 } = true ∧
    retreat_decision ["A"] 3 Severity.heavy
      { heavy := 0, moderate := 0, minor := 1 } = false := by
  refine ⟨?_, by decide, by decide, by decide⟩
  intro nodes_run combat_nodes retreat_limit dmg
  unfold retreat_decision
  by_cases hcap : combat_nodes ≤ nodes_run.length <;>
    by_cases hdmg : 0 < get_damage_counts_at_threshold retreat_limit dmg <;>
    simp [hcap, hdmg]

/-- Witness for C5: with one node run, a cap of 3 and one minor-damaged
ship at retreat limit minor, the decision is retreat. -/
theorem retreat_decision_iff_cap_or_threshold_witness :
    retreat_decision ["A"] 3 Severity.minor
      { heavy := 0, moderate := 0, minor := 1 } = true :=
  (retreat_decision_iff_cap_or_threshold.1 ["A"] 3 Severity.minor
    { heavy := 0, moderate := 0, minor := 1 }).mpr (Or.inr (by decide))

/-- C6: each observation whose position matches a map node updates the
tracked current node to that node; an observation matching no node leaves
the previously tracked node unchanged; and across any sequence of
observations, once a node has been found the tracked node is never none
again. -/
theorem update_fleet_position_never_regresses
    (find_node_by_pos : Int × Int → Option String) (region_x region_y : Int)
    (events : List SikuliMatch) (st : TrackerState) :
    (∀ (e : SikuliMatch) (node : String),
      find_node_by_pos (match_position region_x region_y e) = some node →
      (update_fleet_position find_node_by_pos region_x region_y e st).current_node
        = some node) ∧
    (∀ e : SikuliMatch,
      find_node_by_pos (match_position region_x region_y e) = none →
      (update_fleet_position find_node_by_pos region_x region_y e st).current_node
        = st.current_node) ∧
    (st.current_node ≠ none →
      (run_observer find_node_by_pos region_x region_y events st).current_node
        ≠ none) := by
  refine ⟨?_, ?_, ?_⟩
  · intro e node hmatch
    simp [update_fleet_position, hmatch]
  · intro e hnone
    simp [update_fleet_position, hnone]
  · intro hsome
    induction events generalizing st with
    | nil => exact hsome
    | cons e rest ih =>
        have hstep : (update_fleet_position find_node_by_pos region_x region_y
            e st).current_node ≠ none := by
          unfold update_fleet_position
          rcases hm : find_node_by_pos (match_position region_x region_y e) with _ | node <;>
            simp [hm, hsome]
        simpa [run_observer, List.foldl] using
          ih (update_fleet_position find_node_by_pos region_x region_y e st) hstep

/-- Map lookup used to instantiate the tracker claims: node A occupies the
single position (50, 60). -/
def example_find_node (pos : Int × Int) : Option String :=
if pos = (50, 60) then some "A" else none

/-- Example tracker state that has already found node A. -/
def example_tracker_state : TrackerState :=
{ current_position := (50, 60), current_node := some "A" }

/-- Witness for C6: starting from a state that has found node A, an
observation event whose position matches no node leaves the tracked node
non-none. -/
theorem update_fleet_position_never_regresses_witness :
    (run_observer example_find_node 0 0
        [{ x := 0, y := 0, w := 0, h := 0 }] example_tracker_state).current_node
      ≠ none :=
  (update_fleet_position_never_regresses example_find_node 0 0
    [{ x := 0, y := 0, w := 0, h := 0 }] example_tracker_state).2.2 (by decide)

/-- C9: for a CombatFleet whose damage dict has a heavy entry, the quantity
damage_counts['heavy'] + damaged_fcf_retreat_count is preserved by
increment_fcf_retreat_count, which moreover leaves the fleet unchanged
unless its own heavy count is exactly 1, and is preserved by
resolve_fcf_retreat_counts, which additionally leaves the retreat counter at
0. -/
theorem fcf_retreat_count_invariant (f : CombatFleet) (dc : DamageCounts)
    (h : f.damage_counts = some dc) :
    (∃ dc' : DamageCounts,
      f.increment_fcf_retreat_count.damage_counts = some dc' ∧
      dc'.heavy + f.increment_fcf_retreat_count.damaged_fcf_retreat_count
        = dc.heavy + f.damaged_fcf_retreat_count) ∧
    (dc.heavy ≠ 1 → f.increment_fcf_retreat_count = f) ∧
    (∃ f' : CombatFleet,
      f.resolve_fcf_retreat_counts = some f' ∧
      f'.damaged_fcf_retreat_count = 0 ∧
      ∃ dc' : DamageCounts,
        f'.damage_counts = some dc' ∧
        dc'.heavy + f'.damaged_fcf_retreat_count
          = dc.heavy + f.damaged_fcf_retreat_count) := by
  refine ⟨?_, ?_, ?_⟩
  · unfold CombatFleet.increment_fcf_retreat_count
    rw [h]
    by_cases h1 : dc.heavy = 1
    · exact ⟨{ dc with heavy := dc.heavy - 1 }, by simp [h1], by simp [h1]; omega⟩
    · exact ⟨dc, by simp [h1, h], by simp [h1]⟩
  · intro h1
    unfold CombatFleet.increment_fcf_retreat_count
    rw [h]
    simp [h1]
  · unfold CombatFleet.resolve_fcf_retreat_counts
    rw [h]
    exact ⟨_, rfl, rfl, { dc with heavy := dc.heavy + f.damaged_fcf_retreat_count },
      rfl, by simp⟩

/-- Example fleet used to instantiate the FCF counter claims: fleet 1 with
one heavily damaged ship and one prior FCF retreat. -/
def example_fleet : CombatFleet :=
{ fleet_id := 1,
  damage_counts := some { heavy := 1, moderate := 0, minor := 0 },
  damaged_fcf_retreat_count := 2 }

/-- Witness for C9 at a concrete fleet with heavy count 1 and retreat
counter 2. -/
theorem fcf_retreat_count_invariant_witness :
    (∃ dc' : DamageCounts,
      example_fleet.increment_fcf_retreat_count.damage_counts = some dc' ∧
      dc'.heavy + example_fleet.increment_fcf_retreat_count.damaged_fcf_retreat_count
        = (1 : Int) + 2) ∧
    ((1 : Int) ≠ 1 → example_fleet.increment_fcf_retreat_count = example_fleet) ∧
    (∃ f' : CombatFleet,
      example_fleet.resolve_fcf_retreat_counts = some f' ∧
      f'.damaged_fcf_retreat_count = 0 ∧
      ∃ dc' : DamageCounts,
        f'.damage_counts = some dc' ∧
        dc'.heavy + f'.damaged_fcf_retreat_count = (1 : Int) + 2) :=
  fcf_retreat_count_invariant example_fleet
    { heavy := 1, moderate := 0, minor := 0 } rfl

/-- C10: after resupply_fleets, every fleet's needs_resupply flag is False
and check_need_to_resupply returns False; fleets whose flag was already
False are left unchanged by the loop body, and the resupply counter is
advanced only for the fleets that needed resupply. -/
theorem resupply_fleets_clears_all_flags (fleets : List ResupplyFleet)
    (resupplies_done : Nat) :
    (∀ fleet ∈ (resupply_fleets fleets resupplies_done).1,
      fleet.needs_resupply = false) ∧
    check_need_to_resupply (resupply_fleets fleets resupplies_done).1 = false ∧
    (∀ fleet ∈ fleets, fleet.needs_resupply = false →
      resupply_one_fleet fleet = fleet) ∧
    (resupply_fleets fleets resupplies_done).2
      = resupplies_done + fleets.countP fun fleet => fleet.needs_resupply := by
  refine ⟨?_, ?_, ?_, rfl⟩
  · intro fleet hmem
    simp only [resupply_fleets, List.mem_map] at hmem
    obtain ⟨g, _, hg⟩ := hmem
    subst hg
    unfold resupply_one_fleet
    by_cases hg2 : g.needs_resupply <;> simp [hg2]
  · simp only [check_need_to_resupply, resupply_fleets, List.any_map,
      List.any_eq_false, Function.comp]
    intro fleet hmem
    unfold resupply_one_fleet
    by_cases hg2 : fleet.needs_resupply <;> simp [hg2]
  · intro fleet _ hflag
    unfold resupply_one_fleet
    simp [hflag]

/-- Example fleet list for the resupply claims: fleet 1 needs resupply,
fleet 2 does not. -/
def example_resupply_fleets : List ResupplyFleet :=
[{ fleet_id := 1, needs_resupply := true },
 { fleet_id := 2, needs_resupply := false }]

/-- Witness for C10: the already-supplied fleet 2 is left unchanged by the
loop body. -/
theorem resupply_fleets_clears_all_flags_witness :
    resupply_one_fleet { fleet_id := 2, needs_resupply := false }
      = { fleet_id := 2, needs_resupply := false } :=
  (resupply_fleets_clears_all_flags example_resupply_fleets 0).2.2.1
    { fleet_id := 2, needs_resupply := false } (by decide) (by decide)

/-- Helper: increment_fcf_retreat_count on a fleet whose heavy count is
exactly 1 bumps the counter and zeroes the heavy count. -/
theorem increment_fcf_eq_of_heavy_one (f : CombatFleet) (dc : DamageCounts)
    (h : f.damage_counts = some dc) (h1 : dc.heavy = 1) :
    f.increment_fcf_retreat_count
      = { f with
          damage_counts := some { dc with heavy := dc.heavy - 1 },
          damaged_fcf_retreat_count := f.damaged_fcf_retreat_count + 1 } := by
  unfold CombatFleet.increment_fcf_retreat_count
  rw [h]
  simp [h1]

/-- Helper: increment_fcf_retreat_count on a fleet whose heavy count is not 1
changes nothing. -/
theorem increment_fcf_eq_of_heavy_ne_one (f : CombatFleet) (dc : DamageCounts)
    (h : f.damage_counts = some dc) (h1 : dc.heavy ≠ 1) :
    f.increment_fcf_retreat_count = f := by
  unfold CombatFleet.increment_fcf_retreat_count
  rw [h]
  simp [h1]

/-- Helper: a full case analysis of conduct_pre_sortie_checks.  Either no
veto fires, the checks pass and the scheduling state is untouched, or the
checks fail and the stored time is now plus the delay of the last veto that
fired, in source order. -/
theorem pre_sortie_checks_cases (inp : PreSortieInput) (nct : Nat) :
    (applicable_veto_delays inp = [] ∧
      conduct_pre_sortie_checks inp nct = (true, nct)) ∨
    (∃ d : Nat, (applicable_veto_delays inp).getLast? = some d ∧
      conduct_pre_sortie_checks inp nct = (false, inp.now + d)) := by
  unfold conduct_pre_sortie_checks applicable_veto_delays set_next_combat_time
  by_cases hd : 0 < get_damage_counts_at_threshold inp.repair_limit inp.dmg <;>
    rcases hr : inp.needs_resupply <;> rcases hc : inp.check_fatigue <;>
    rcases hh : inp.fatigue_high <;> rcases hm : inp.fatigue_medium <;>
    rcases hp : inp.port_check <;> rcases hf : inp.port_full <;>
    simp [hd, hr, hc, hh, hm, hp, hf]

/-- Input refuting the literal reading of claim C2: the fatigue sampler
reports both high and medium fatigue (a multi-ship fleet can show both
icons), and no later veto fires. -/
def c2_counter_input : PreSortieInput :=
{ now := 100, needs_resupply := false, check_fatigue := true,
  fatigue_high := true, fatigue_medium := true,
  repair_limit := Severity.heavy,
  dmg := { heavy := 0, moderate := 0, minor := 0 },
  port_check := false, port_full := false }

/-- C2 counterexample: with both fatigue vetoes holding (high and medium
flags both true) and nothing after them, the last applicable veto in the
claim's listed order is fatigue-medium with 15 minutes, yet the code stores
now + 25: the medium branch is an elif that is never evaluated when the high
branch fires, so the stored delay is not the last listed veto's delay. -/
theorem conduct_pre_sortie_checks_not_literal_last_veto :
    (claimed_veto_delays c2_counter_input).getLast? = some 15 ∧
    conduct_pre_sortie_checks c2_counter_input 0 = (false, 100 + 25) ∧
    (conduct_pre_sortie_checks c2_counter_input 0).2 ≠ 100 + 15 := by decide

/-- C2 (amended): with the fatigue-medium veto applicable only when the
fatigue-high veto is not (the two checks form an if/elif), every combination
of applicable vetoes makes the checks fail with a stored next-sortie time of
now plus the delay of the last applicable veto in the fixed source order
(resupply 0, fatigue-high 25, fatigue-medium 15, damage-threshold 0,
port-full 15), because each veto's assignment overwrites the shared
next-time state. -/
theorem conduct_pre_sortie_checks_last_veto_wins (inp : PreSortieInput)
    (nct d : Nat) (h : (applicable_veto_delays inp).getLast? = some d) :
    conduct_pre_sortie_checks inp nct
      = (false, set_next_combat_time inp.now d) := by
  rcases pre_sortie_checks_cases inp nct with ⟨hemp, _⟩ | ⟨d', hd', hres⟩
  · rw [hemp] at h
    simp at h
  · rw [hd'] at h
    have hdd : d' = d := Option.some.inj h
    rw [hdd] at hres
    exact hres

/-- Input instantiating C2's own example: high fatigue together with damage
over the repair threshold; the damage veto is evaluated later and its delay
of 0 is the one stored. -/
def c2_example_input : PreSortieInput :=
{ now := 100, needs_resupply := false, check_fatigue := true,
  fatigue_high := true, fatigue_medium := false,
  repair_limit := Severity.heavy,
  dmg := { heavy := 1, moderate := 0, minor := 0 },
  port_check := false, port_full := false }

/-- Witness for the amended C2: fatigue-high (25) plus damage-over-threshold
(0) store now + 0, the later veto's delay, not 25. -/
theorem conduct_pre_sortie_checks_last_veto_wins_witness :
    conduct_pre_sortie_checks c2_example_input 0
      = (false, set_next_combat_time 100 0) :=
  conduct_pre_sortie_checks_last_veto_wins c2_example_input 0 0 (by decide)

/-- Helper: when the LBAS gate does not veto, _select_combat_map succeeds and
leaves the scheduling state alone. -/
theorem select_combat_map_pass (inp : WrapperInput) (nct : Nat)
    (h : ¬(inp.lbas_enabled = true ∧ inp.lbas_check_passes = false)) :
    select_combat_map inp nct = (true, nct) := by
  unfold select_combat_map
  rcases hl : inp.lbas_enabled <;> rcases hp : inp.lbas_check_passes <;>
    simp_all

/-- C8: combat_logic_wrapper returns False exactly when the LBAS gate fails,
or some pre-sortie veto fires, or the launch control cannot be clicked; and
on every False return the stored next-sortie time has been freshly assigned
as now plus some delay. -/
theorem combat_logic_wrapper_decline_semantics (inp : WrapperInput) (nct : Nat) :
    ((combat_logic_wrapper inp nct).1 = false ↔
      ((inp.lbas_enabled = true ∧ inp.lbas_check_passes = false) ∨
        applicable_veto_delays inp.pre ≠ [] ∨
        inp.start_click_success = false)) ∧
    ((combat_logic_wrapper inp nct).1 = false →
      ∃ d : Nat, (combat_logic_wrapper inp nct).2
        = set_next_combat_time inp.pre.now d) := by
  by_cases hgate : inp.lbas_enabled = true ∧ inp.lbas_check_passes = false
  · have hw : combat_logic_wrapper inp nct
        = (false, set_next_combat_time inp.pre.now inp.lbas_delay) := by
      unfold combat_logic_wrapper select_combat_map
      simp [hgate.1, hgate.2]
    rw [hw]
    exact ⟨by simp [hgate], fun _ => ⟨inp.lbas_delay, rfl⟩⟩
  · have hsel := select_combat_map_pass inp nct hgate
    rcases pre_sortie_checks_cases inp.pre nct with ⟨hemp, hres⟩ | ⟨d, hd, hres⟩
    · rcases hs : inp.start_click_success
      · have hw : combat_logic_wrapper inp nct
            = (false, set_next_combat_time inp.pre.now 0) := by
          unfold combat_logic_wrapper
          simp [hsel, hres, hs]
        rw [hw]
        exact ⟨by simp [hs], fun _ => ⟨0, rfl⟩⟩
      · have hw : combat_logic_wrapper inp nct = (true, nct) := by
          unfold combat_logic_wrapper
          simp [hsel, hres, hs]
        rw [hw]
        exact ⟨by simp [hgate, hemp, hs], by simp⟩
    · have hne : applicable_veto_delays inp.pre ≠ [] := by
        intro hx
        rw [hx] at hd
        simp at hd
      have hw : combat_logic_wrapper inp nct = (false, inp.pre.now + d) := by
        unfold combat_logic_wrapper
        simp [hsel, hres]
      rw [hw]
      exact ⟨by simp [hne], fun _ => ⟨d, rfl⟩⟩

/-- Input instantiating C8's launch-failure path: no LBAS gate, no veto, but
the launch control cannot be clicked. -/
def c8_example_input : WrapperInput :=
{ pre :=
  { now := 100, needs_resupply := false, check_fatigue := false,
    fatigue_high := false, fatigue_medium := false,
    repair_limit := Severity.heavy,
    dmg := { heavy := 0, moderate := 0, minor := 0 },
    port_check := false, port_full := false },
  lbas_enabled := false, lbas_check_passes := true, lbas_delay := 0,
  start_click_success := false }

/-- Witness for C8: on the concrete launch-failure run the stored time is a
fresh now-plus-delay value. -/
theorem combat_logic_wrapper_decline_semantics_witness :
    ∃ d : Nat, (combat_logic_wrapper c8_example_input 0).2
      = set_next_combat_time c8_example_input.pre.now d :=
  (combat_logic_wrapper_decline_semantics c8_example_input 0).2 (by decide)

/-- The state of claim C1's own example: combined fleet with heavy counts
(1, 0), both FCF-retreat counters at 0, combined tally heavy = 1. -/
def c1_state : FcfState :=
{ fleet1 :=
  { fleet_id := 1,
    damage_counts := some { heavy := 1, moderate := 0, minor := 0 },
    damaged_fcf_retreat_count := 0 },
  fleet2 :=
  { fleet_id := 2,
    damage_counts := some { heavy := 0, moderate := 0, minor := 0 },
    damaged_fcf_retreat_count := 0 },
  dmg := { heavy := 1, moderate := 0, minor := 0 } }

/-- C1 counterexample: with heavy counts (1, 0), sum exactly 1, prompt
visible and the click confirmed, fleet 2's FCF-retreat counter is still 0
after the resolver: increment_fcf_retreat_count only acts on a fleet whose
own heavy count is exactly 1, so only fleet 1's counter is incremented, not
both as the claim states. -/
theorem fcf_resolver_only_one_counter_incremented :
    c1_state.fleet1.damage_counts
      = some { heavy := 1, moderate := 0, minor := 0 } ∧
    c1_state.fleet2.damage_counts
      = some { heavy := 0, moderate := 0, minor := 0 } ∧
    c1_state.fleet1.damaged_fcf_retreat_count = 0 ∧
    c1_state.fleet2.damaged_fcf_retreat_count = 0 ∧
    (fcf_resolver true true c1_state).map
        (fun s => (s.fleet1.damaged_fcf_retreat_count,
          s.fleet2.damaged_fcf_retreat_count))
      = some ((1 : Int), (0 : Int)) := by decide

/-- C1 (amended): when the FCF retreat prompt is visible and the sub-fleets'
heavy counts (both non-negative) sum to exactly 1, the offer is accepted;
increment_fcf_retreat_count is invoked on both sub-fleets but only the one
whose own heavy count is exactly 1 has its counter incremented (its heavy
count dropping to 0), the other sub-fleet being left unchanged, so the two
counters' sum rises by exactly 1; the combined tally's heavy count is
decremented by exactly 1 only if the click is confirmed successful, its
other severities untouched.  If the sum is 0 or at least 2, the offer is
declined and the whole state is unchanged. -/
theorem fcf_resolver_accepts_iff_sum_one (click : Bool) (s : FcfState)
    (dc1 dc2 : DamageCounts)
    (h1 : s.fleet1.damage_counts = some dc1)
    (h2 : s.fleet2.damage_counts = some dc2)
    (hn1 : 0 ≤ dc1.heavy) (hn2 : 0 ≤ dc2.heavy) :
    (dc1.heavy + dc2.heavy = 1 →
      ∃ s' : FcfState, fcf_resolver true click s = some s' ∧
        s'.fleet1.damaged_fcf_retreat_count + s'.fleet2.damaged_fcf_retreat_count
          = s.fleet1.damaged_fcf_retreat_count
            + s.fleet2.damaged_fcf_retreat_count + 1 ∧
        (dc1.heavy = 1 →
          s'.fleet1.damaged_fcf_retreat_count
            = s.fleet1.damaged_fcf_retreat_count + 1 ∧
          s'.fleet1.damage_counts = some { dc1 with heavy := 0 } ∧
          s'.fleet2 = s.fleet2) ∧
        (dc2.heavy = 1 →
          s'.fleet2.damaged_fcf_retreat_count
            = s.fleet2.damaged_fcf_retreat_count + 1 ∧
          s'.fleet2.damage_counts = some { dc2 with heavy := 0 } ∧
          s'.fleet1 = s.fleet1) ∧
        s'.dmg.heavy = s.dmg.heavy - (if click then 1 else 0) ∧
        s'.dmg.moderate = s.dmg.moderate ∧
        s'.dmg.minor = s.dmg.minor) ∧
    (dc1.heavy + dc2.heavy ≠ 1 → fcf_resolver true click s = some s) := by
  constructor
  · intro hsum
    have hone : (dc1.heavy = 1 ∧ dc2.heavy = 0) ∨
        (dc1.heavy = 0 ∧ dc2.heavy = 1) := by omega
    have hres : fcf_resolver true click s = some
        { fleet1 := s.fleet1.increment_fcf_retreat_count,
          fleet2 := s.fleet2.increment_fcf_retreat_count,
          dmg := if click then { s.dmg with heavy := s.dmg.heavy - 1 }
            else s.dmg } := by
      unfold fcf_resolver
      simp only [if_true, h1, h2]
      rw [if_pos hsum]
      cases click <;> simp
    rcases hone with ⟨ha, hb⟩ | ⟨ha, hb⟩
    · rw [increment_fcf_eq_of_heavy_one s.fleet1 dc1 h1 ha,
        increment_fcf_eq_of_heavy_ne_one s.fleet2 dc2 h2 (by omega)] at hres
      refine ⟨_, hres, by simp; omega, fun _ => ⟨by simp, by simp [ha], rfl⟩,
        fun hc => absurd hc (by omega), ?_, by cases click <;> simp,
        by cases click <;> simp⟩
      cases click <;> simp
    · rw [increment_fcf_eq_of_heavy_one s.fleet2 dc2 h2 hb,
        increment_fcf_eq_of_heavy_ne_one s.fleet1 dc1 h1 (by omega)] at hres
      refine ⟨_, hres, by simp; omega, fun hc => absurd hc (by omega),
        fun _ => ⟨by simp, by simp [hb], rfl⟩, ?_, by cases click <;> simp,
        by cases click <;> simp⟩
      cases click <;> simp
  · intro hsum
    unfold fcf_resolver
    simp only [if_true, h1, h2]
    rw [if_neg hsum]

/-- Witness for the amended C1 at the concrete state with heavy counts
(1, 0) and a confirmed click. -/
theorem fcf_resolver_accepts_iff_sum_one_witness :
    ∃ s' : FcfState, fcf_resolver true true c1_state = some s' ∧
      s'.fleet1.damaged_fcf_retreat_count + s'.fleet2.damaged_fcf_retreat_count
        = c1_state.fleet1.damaged_fcf_retreat_count
          + c1_state.fleet2.damaged_fcf_retreat_count + 1 ∧
      ((1 : Int) = 1 →
        s'.fleet1.damaged_fcf_retreat_count
          = c1_state.fleet1.damaged_fcf_retreat_count + 1 ∧
        s'.fleet1.damage_counts = some { heavy := 0, moderate := 0, minor := 0 } ∧
        s'.fleet2 = c1_state.fleet2) ∧
      ((0 : Int) = 1 →
        s'.fleet2.damaged_fcf_retreat_count
          = c1_state.fleet2.damaged_fcf_retreat_count + 1 ∧
        s'.fleet2.damage_counts = some { heavy := 0, moderate := 0, minor := 0 } ∧
        s'.fleet1 = c1_state.fleet1) ∧
      s'.dmg.heavy = c1_state.dmg.heavy - (if true then 1 else 0) ∧
      s'.dmg.moderate = c1_state.dmg.moderate ∧
      s'.dmg.minor = c1_state.dmg.minor :=
  (fcf_resolver_accepts_iff_sum_one true c1_state
    { heavy := 1, moderate := 0, minor := 0 }
    { heavy := 0, moderate := 0, minor := 0 }
    rfl rfl (by decide) (by decide)).1 (by decide)

end KCAuto
